import Mathlib

/-!
Verification development for a 2-D cloth simulator (Verlet integration with
distance-constraint sticks).  The Rust source stores points and sticks behind
shared `Rc<RefCell<...>>` references; we embed them as arenas indexed by
natural numbers:

* `Cloth.points` is the list of points (row-major grid order);
* `Cloth.stickHeap` is an arena of every stick ever created (a stick object
  stays alive while a point still references it, mirroring `Rc`);
* `Cloth.stickList` is the cloth's own `Vec<Rc<RefCell<Stick>>>`, holding
  heap indices; end-of-frame removal drops entries from this list only.

`f64` is modelled as `ℝ`.
-/

noncomputable section
open scoped Classical

/-- 2-D vector, `math.rs` `Vector2 {x: f64, y: f64}`. -/
structure Vector2 where
  x : ℝ
  y : ℝ
deriving Inhabited

instance : Add Vector2 := ⟨fun a b => ⟨a.x + b.x, a.y + b.y⟩⟩

instance : Sub Vector2 := ⟨fun a b => ⟨a.x - b.x, a.y - b.y⟩⟩

/-- `impl Mul<f64> for Vector2`: componentwise scalar multiplication. -/
instance : HMul Vector2 ℝ Vector2 := ⟨fun v c => ⟨v.x * c, v.y * c⟩⟩

/-- `impl Mul<Vector2> for f64`. -/
instance : HMul ℝ Vector2 Vector2 := ⟨fun c v => ⟨v.x * c, v.y * c⟩⟩

/-- `Vector2::magnitude_squared`: `x*x + y*y`. -/
def Vector2.magnitude_squared (v : Vector2) : ℝ := v.x * v.x + v.y * v.y

/-- `Vector2::magnitude`: `sqrt(x*x + y*y)`. -/
def Vector2.magnitude (v : Vector2) : ℝ := Real.sqrt v.magnitude_squared

/-- `Vector2::distance`. -/
def Vector2.distance (v w : Vector2) : ℝ := (v - w).magnitude

/-- `const GRAVITY: Vector2 = Vector2 { x: 0.0, y: 981.0 }`. -/
def GRAVITY : Vector2 := ⟨0, 981⟩

/-- `const CURSOR_RADIUS: f64 = 10.0`. -/
def CURSOR_RADIUS : ℝ := 10

/-- Rust `f64::clamp(lo, hi)`. -/
def rclamp (v lo hi : ℝ) : ℝ := if v < lo then lo else if hi < v then hi else v

/-- `Stick` (lib.rs): endpoints are arena indices into `Cloth.points`
(standing in for the two `Rc<RefCell<Point>>` shared references). -/
structure Stick where
  p1 : ℕ
  p2 : ℕ
  length : ℝ
  elasticity : ℝ
  selected : Bool
  broken : Bool
deriving Inhabited

/-- The record built by `Stick::new` after its assertion has passed. -/
def Stick.make (p1 p2 : ℕ) (length elasticity : ℝ) : Stick :=
  { p1 := p1, p2 := p2, length := length, elasticity := elasticity,
    selected := false, broken := false }

/-- `Stick::new` with its `assert!(elasticity >= 0.0)`: the failed assertion
(a Rust abort) is modelled as `none`. -/
def Stick.new (p1 p2 : ℕ) (length elasticity : ℝ) : Option Stick :=
  if 0 ≤ elasticity then some (Stick.make p1 p2 length elasticity) else none

/-- `Point` (lib.rs).  The field `sticks: [Option<Rc<RefCell<Stick>>>; 2]`
is modelled as the two slots `stick0` / `stick1` holding stick-arena
indices. -/
structure Point where
  position : Vector2
  prev_position : Vector2
  initial_position : Vector2
  stick0 : Option ℕ
  stick1 : Option ℕ
  pinned : Bool
deriving Inhabited

/-- `Point::new`. -/
def Point.new (position : Vector2) : Point :=
  { position := position, prev_position := position,
    initial_position := position, stick0 := none, stick1 := none,
    pinned := false }

/-- `Point::add_stick(stick, add_index)`: writes `self.sticks[add_index]`. -/
def Point.add_stick (p : Point) (sid : ℕ) (add_index : ℕ) : Point :=
  if add_index = 0 then { p with stick0 := some sid } else { p with stick1 := some sid }

/-- `Point::pin`. -/
def Point.pin (p : Point) : Point := { p with pinned := true }

/-- `Point::break_sticks`: for each occupied slot, mark that stick broken in
the arena and clear the point's own slot. -/
def Point.break_sticks (p : Point) (heap : List Stick) : Point × List Stick :=
  let r0 :=
    match p.stick0 with
    | some s => ({ p with stick0 := none },
                 heap.set s { heap.getD s default with broken := true })
    | none => (p, heap)
  match r0.1.stick1 with
  | some s => ({ r0.1 with stick1 := none },
               r0.2.set s { r0.2.getD s default with broken := true })
  | none => r0

/-- Write `selected` into the stick referenced by one slot (the loop body of
the highlight pass in `Point::update`). -/
def setSelected (heap : List Stick) (slot : Option ℕ) (sel : Bool) : List Stick :=
  match slot with
  | some s => heap.set s { heap.getD s default with selected := sel }
  | none => heap

/-- `Point::update(dt, drag, acceleration, selected)`: propagate the
highlight onto both slot sticks, then either snap a pinned point back to its
anchor or advance it by Verlet integration. -/
def Point.update (p : Point) (heap : List Stick) (dt drag : ℝ)
    (acceleration : Vector2) (selected : Bool) : Point × List Stick :=
  let heap1 := setSelected heap p.stick0 selected
  let heap2 := setSelected heap1 p.stick1 selected
  if p.pinned then
    ({ p with position := p.initial_position }, heap2)
  else
    let new_position := p.position + (p.position - p.prev_position) * (1 - drag)
      + acceleration * (1 - drag) * dt * dt
    ({ p with prev_position := p.position, position := new_position }, heap2)

/-- `Stick::update`: compute the correction offset from the two endpoint
positions (reading the arena), set `broken` when overstretched, then apply
`p1.position += offset; p2.position -= offset`. -/
def Stick.updateState (pts : List Point) (st : Stick) : List Point × Stick :=
  let q1 := pts.getD st.p1 default
  let q2 := pts.getD st.p2 default
  let diff := q1.position - q2.position
  let dist := diff.magnitude
  let st1 := if st.length * (1 + st.elasticity) < dist then { st with broken := true } else st
  let diff_factor := (st1.length - dist) / dist
  let offset : Vector2 := diff * diff_factor * (0.5 : ℝ)
  let pts1 := pts.set st.p1 { q1 with position := q1.position + offset }
  let pts2 := pts1.set st.p2
    { pts1.getD st.p2 default with position := (pts1.getD st.p2 default).position - offset }
  (pts2, st1)

/-- `Cloth` (lib.rs), with the stick `Vec` split into arena + index list as
described in the module docstring. -/
structure Cloth where
  points : List Point
  stickHeap : List Stick
  stickList : List ℕ
  drag : ℝ
  elasticity : ℝ

/-- `Mouse` state consumed per frame (`notan` `Mouse` is external; only
position and the two button flags are read). -/
structure Mouse where
  position : Vector2
  leftDown : Bool
  rightDown : Bool

/-- One iteration of the grid-construction loop body of `Cloth::new`, at
grid coordinate `(x, y)`.  The accumulated state is `(points, sticks)`.
`Stick::new` is used here with the cloth's `elasticity`; its assertion is
reflected by `Stick.make` (see `Stick.new` for the checked constructor). -/
def Cloth.newStep (width : ℕ) (spacing start_x start_y : ℤ) (elasticity : ℝ)
    (y x : ℕ) (acc : List Point × List Stick) : List Point × List Stick :=
  let points := acc.1
  let sticks := acc.2
  let point := Point.new ⟨((start_x + (x : ℤ) * spacing : ℤ) : ℝ),
                          ((start_y + (y : ℤ) * spacing : ℤ) : ℝ)⟩
  -- stick to the left neighbour (registered in slot 0 of both endpoints)
  let r1 :=
    if x ≠ 0 then
      let li := points.length - 1
      let sid := sticks.length
      let stick := Stick.make points.length li (spacing : ℝ) elasticity
      (point.add_stick sid 0,
       points.set li ((points.getD li default).add_stick sid 0),
       sticks ++ [stick])
    else (point, points, sticks)
  -- stick to the upper neighbour (registered in slot 1 of both endpoints)
  let r2 :=
    if y ≠ 0 then
      let ui := x + (y - 1) * width
      let sid := (r1.2).2.length
      let stick := Stick.make (r1.2).1.length ui (spacing : ℝ) elasticity
      (r1.1.add_stick sid 1,
       (r1.2).1.set ui (((r1.2).1.getD ui default).add_stick sid 1),
       (r1.2).2 ++ [stick])
    else r1
  let point2 := if y = 0 ∧ x % 2 = 0 then r2.1.pin else r2.1
  ((r2.2).1 ++ [point2], (r2.2).2)

/-- `Cloth::new(width, height, spacing, start_x, start_y, elasticity)`. -/
def Cloth.new (width height : ℕ) (spacing start_x start_y : ℤ)
    (elasticity : ℝ) : Cloth :=
  let built := (List.range height).foldl
    (fun acc y => (List.range width).foldl
      (fun acc x => Cloth.newStep width spacing start_x start_y elasticity y x acc) acc)
    ([], [])
  { points := built.1, stickHeap := built.2,
    stickList := List.range built.2.length, drag := 0.05,
    elasticity := elasticity }

/-- Phase-1 loop body of `Cloth::update` for the point at index `i`:
cursor-selection test, force assembly (gravity, optional mouse drag force,
optional tear), then `Point::update`. -/
def phase1Step (dt : ℝ) (m : Mouse) (prev_mouse_position : Vector2)
    (c : Cloth) (i : ℕ) : Cloth :=
  let p := c.points.getD i default
  let dist_sq := (p.position - m.position).magnitude_squared
  let selected : Bool := decide (dist_sq ≤ CURSOR_RADIUS * CURSOR_RADIUS)
  let r :=
    if selected then
      if m.leftDown then
        let diff := m.position - prev_mouse_position
        let clamped : Vector2 := ⟨rclamp diff.x (-c.elasticity) c.elasticity,
                                  rclamp diff.y (-c.elasticity) c.elasticity⟩
        (p, c.stickHeap, GRAVITY + clamped * (10000 : ℝ))
      else if m.rightDown then
        let bs := p.break_sticks c.stickHeap
        (bs.1, bs.2, GRAVITY)
      else (p, c.stickHeap, GRAVITY)
    else (p, c.stickHeap, GRAVITY)
  let pu := Point.update r.1 (r.2).1 dt c.drag (r.2).2 selected
  { c with points := c.points.set i pu.1, stickHeap := pu.2 }

/-- Phase 1 of `Cloth::update` over an explicit list of point indices. -/
def phase1Go (dt : ℝ) (m : Mouse) (pm : Vector2) (c : Cloth) (is : List ℕ) : Cloth :=
  is.foldl (phase1Step dt m pm) c

/-- Phase 1 of `Cloth::update`: the per-point loop, in point order. -/
def phase1 (c : Cloth) (dt : ℝ) (m : Mouse) (pm : Vector2) : Cloth :=
  phase1Go dt m pm c (List.range c.points.length)

/-- Phase 2 of `Cloth::update`: iterate the stick list with its enumeration
counter, collecting into `to_remove` the positions whose stick is `broken`
at visit time (checked before `Stick::update` runs on it), and applying the
constraint step to each stick. -/
def phase2 : List Point → List Stick → List ℕ → ℕ → List Point × List Stick × List ℕ
  | pts, heap, [], _ => (pts, heap, [])
  | pts, heap, sid :: rest, i =>
    let st := heap.getD sid default
    let res := Stick.updateState pts st
    let out := phase2 res.1 (heap.set sid res.2) rest (i + 1)
    (out.1, (out.2).1, (if st.broken then [i] else []) ++ (out.2).2)

/-- `Cloth::remove_sticks`: remove the collected positions in descending
order (`indices.iter().rev()`). -/
def Cloth.remove_sticks (l : List ℕ) (indices : List ℕ) : List ℕ :=
  indices.reverse.foldl (fun acc i => acc.eraseIdx i) l

/-- `Cloth::update(dt, mouse, prev_mouse_position)`: the three phases. -/
def Cloth.update (c : Cloth) (dt : ℝ) (m : Mouse) (prev_mouse_position : Vector2) : Cloth :=
  let c1 := phase1 c dt m prev_mouse_position
  let r2 := phase2 c1.points c1.stickHeap c1.stickList 0
  { c1 with
    points := r2.1
    stickHeap := (r2.2).1
    stickList := Cloth.remove_sticks c1.stickList (r2.2).2 }

/-- Whether a point references stick `sid` in one of its two slots. -/
def Point.holds (p : Point) (sid : ℕ) : Prop :=
  p.stick0 = some sid ∨ p.stick1 = some sid

/-- The selection status `Cloth::update` computes for a point: squared
distance to the cursor within `CURSOR_RADIUS²`. -/
def selStatus (m : Mouse) (p : Point) : Bool :=
  decide ((p.position - m.position).magnitude_squared ≤ CURSOR_RADIUS * CURSOR_RADIUS)

/-- Index positions (from counter `i`) of the elements satisfying `q`; the
shape of the `to_remove` list collected in phase 2. -/
def collectIdxs (q : α → Bool) : List α → ℕ → List ℕ
  | [], _ => []
  | a :: l, i => (if q a then [i] else []) ++ collectIdxs q l (i + 1)

/-! ### Generic list-arena lemmas -/

theorem getD_set (l : List α) (i j : ℕ) (a d : α) :
    (l.set i a).getD j d = if i = j ∧ j < l.length then a else l.getD j d := by
  induction l generalizing i j with
  | nil => simp
  | cons b t ih =>
    cases i with
    | zero =>
      cases j with
      | zero => simp
      | succ m => simp
    | succ n =>
      cases j with
      | zero => simp
      | succ m =>
        simp only [List.set_cons_succ, List.getD_cons_succ, List.length_cons]
        rw [ih]
        exact if_congr (by omega) rfl rfl

theorem getD_set_ne (l : List α) {i j : ℕ} (a d : α) (h : i ≠ j) :
    (l.set i a).getD j d = l.getD j d := by
  rw [getD_set]; exact if_neg (by tauto)

theorem getD_set_self (l : List α) {i : ℕ} (a d : α) (h : i < l.length) :
    (l.set i a).getD i d = a := by
  rw [getD_set]; exact if_pos ⟨rfl, h⟩

theorem getD_default_of_le (l : List α) {i : ℕ} (d : α) (h : l.length ≤ i) :
    l.getD i d = d := by
  have hn : l[i]? = none := List.getElem?_eq_none h
  simp [List.getD, hn]

/-! ### Highlight-pass lemmas -/

theorem length_setSelected (heap : List Stick) (slot : Option ℕ) (sel : Bool) :
    (setSelected heap slot sel).length = heap.length := by
  cases slot <;> simp [setSelected]

theorem getD_setSelected (heap : List Stick) (slot : Option ℕ) (sel : Bool) (sid : ℕ) :
    (setSelected heap slot sel).getD sid default =
      if slot = some sid ∧ sid < heap.length
      then { heap.getD sid default with selected := sel }
      else heap.getD sid default := by
  cases slot with
  | none => simp [setSelected]
  | some s =>
    simp only [setSelected, Option.some.injEq]
    by_cases hc : s = sid ∧ sid < heap.length
    · obtain ⟨heq, hl⟩ := hc
      subst heq
      rw [getD_set_self _ _ _ hl, if_pos ⟨rfl, hl⟩]
    · rw [getD_set, if_neg hc, if_neg hc]

theorem broken_setSelected (heap : List Stick) (slot : Option ℕ) (sel : Bool) (sid : ℕ) :
    ((setSelected heap slot sel).getD sid default).broken =
      (heap.getD sid default).broken := by
  rw [getD_setSelected]; split <;> rfl

theorem Point.update_snd (p : Point) (heap : List Stick) (dt drag : ℝ)
    (acc : Vector2) (sel : Bool) :
    (Point.update p heap dt drag acc sel).2 =
      setSelected (setSelected heap p.stick0 sel) p.stick1 sel := by
  by_cases hp : p.pinned <;> simp [Point.update, hp]

theorem Point.update_fst_pinned (p : Point) (heap : List Stick) (dt drag : ℝ)
    (acc : Vector2) (sel : Bool) (h : p.pinned = true) :
    (Point.update p heap dt drag acc sel).1 = { p with position := p.initial_position } := by
  simp [Point.update, h]

theorem Point.update_fst_free (p : Point) (heap : List Stick) (dt drag : ℝ)
    (acc : Vector2) (sel : Bool) (h : p.pinned = false) :
    (Point.update p heap dt drag acc sel).1 =
      { p with
        prev_position := p.position
        position := p.position + (p.position - p.prev_position) * (1 - drag)
          + acc * (1 - drag) * dt * dt } := by
  simp [Point.update, h]

/-! ### break_sticks lemmas -/

theorem broken_markBroken (heap : List Stick) (s sid : ℕ)
    (h : (heap.getD sid default).broken = true) :
    ((heap.set s { heap.getD s default with broken := true }).getD sid default).broken
      = true := by
  rw [getD_set]; split
  · rfl
  · exact h

theorem break_sticks_fst (p : Point) (heap : List Stick) :
    ((p.break_sticks heap).1).position = p.position ∧
    ((p.break_sticks heap).1).prev_position = p.prev_position ∧
    ((p.break_sticks heap).1).initial_position = p.initial_position ∧
    ((p.break_sticks heap).1).pinned = p.pinned := by
  unfold Point.break_sticks
  cases p.stick0 <;> cases hs1 : p.stick1 <;> simp [hs1]

theorem break_sticks_broken_mono (p : Point) (heap : List Stick) (sid : ℕ)
    (h : (heap.getD sid default).broken = true) :
    (((p.break_sticks heap).2).getD sid default).broken = true := by
  unfold Point.break_sticks
  cases p.stick0 <;> cases hs1 : p.stick1 <;>
    simp only [hs1] <;>
    first
      | exact h
      | exact broken_markBroken _ _ _ h
      | exact broken_markBroken _ _ _ (broken_markBroken _ _ _ h)

theorem break_sticks_heap_length (p : Point) (heap : List Stick) :
    ((p.break_sticks heap).2).length = heap.length := by
  unfold Point.break_sticks
  cases p.stick0 <;> cases hs1 : p.stick1 <;> simp [hs1]

/-! ### Phase-1 structural lemmas -/

theorem phase1Step_stickList (dt : ℝ) (m : Mouse) (pm : Vector2) (c : Cloth) (i : ℕ) :
    (phase1Step dt m pm c i).stickList = c.stickList := rfl

theorem phase1Step_drag (dt : ℝ) (m : Mouse) (pm : Vector2) (c : Cloth) (i : ℕ) :
    (phase1Step dt m pm c i).drag = c.drag := rfl

theorem phase1Step_elasticity (dt : ℝ) (m : Mouse) (pm : Vector2) (c : Cloth) (i : ℕ) :
    (phase1Step dt m pm c i).elasticity = c.elasticity := rfl

theorem phase1Step_points_length (dt : ℝ) (m : Mouse) (pm : Vector2) (c : Cloth) (i : ℕ) :
    (phase1Step dt m pm c i).points.length = c.points.length := by
  simp [phase1Step]

theorem phase1Step_heap_length (dt : ℝ) (m : Mouse) (pm : Vector2) (c : Cloth) (i : ℕ) :
    (phase1Step dt m pm c i).stickHeap.length = c.stickHeap.length := by
  simp only [phase1Step, Point.update_snd, length_setSelected]
  split
  · split
    · rfl
    · split
      · exact break_sticks_heap_length _ _
      · rfl
  · rfl

theorem phase1Step_points_ne (dt : ℝ) (m : Mouse) (pm : Vector2) (c : Cloth)
    {i j : ℕ} (h : i ≠ j) :
    (phase1Step dt m pm c i).points.getD j default = c.points.getD j default := by
  simp only [phase1Step]
  exact getD_set_ne _ _ _ h

theorem phase1Step_broken_mono (dt : ℝ) (m : Mouse) (pm : Vector2) (c : Cloth)
    (i sid : ℕ) (h : ((c.stickHeap.getD sid default)).broken = true) :
    ((phase1Step dt m pm c i).stickHeap.getD sid default).broken = true := by
  simp only [phase1Step, Point.update_snd, broken_setSelected]
  split
  · split
    · exact h
    · split
      · exact break_sticks_broken_mono _ _ _ h
      · exact h
  · exact h

theorem Point.update_fst_pinned_eq (q : Point) (heap : List Stick) (dt drag : ℝ)
    (acc : Vector2) (sel : Bool) :
    ((Point.update q heap dt drag acc sel).1).pinned = q.pinned := by
  by_cases hq : q.pinned <;> simp [Point.update, hq]

theorem Point.update_fst_initial_eq (q : Point) (heap : List Stick) (dt drag : ℝ)
    (acc : Vector2) (sel : Bool) :
    ((Point.update q heap dt drag acc sel).1).initial_position = q.initial_position := by
  by_cases hq : q.pinned <;> simp [Point.update, hq]

theorem Point.update_fst_stick0 (q : Point) (heap : List Stick) (dt drag : ℝ)
    (acc : Vector2) (sel : Bool) :
    ((Point.update q heap dt drag acc sel).1).stick0 = q.stick0 := by
  by_cases hq : q.pinned <;> simp [Point.update, hq]

theorem Point.update_fst_stick1 (q : Point) (heap : List Stick) (dt drag : ℝ)
    (acc : Vector2) (sel : Bool) :
    ((Point.update q heap dt drag acc sel).1).stick1 = q.stick1 := by
  by_cases hq : q.pinned <;> simp [Point.update, hq]

/-- The pre-integration point value `phase1Step` feeds into `Point.update`:
either the point itself, or (tear branch) the point with its slots cleared;
its `pinned` flag and `initial_position` are unchanged either way. -/
theorem phase1Step_pinned (dt : ℝ) (m : Mouse) (pm : Vector2) (c : Cloth) (i j : ℕ) :
    ((phase1Step dt m pm c i).points.getD j default).pinned =
      (c.points.getD j default).pinned := by
  simp only [phase1Step]
  rw [getD_set]
  split
  · rename_i hij
    obtain ⟨rfl, hlt⟩ := hij
    rw [Point.update_fst_pinned_eq]
    split
    · split
      · rfl
      · split
        · exact (break_sticks_fst _ _).2.2.2
        · rfl
    · rfl
  · rfl

theorem phase1Step_initial (dt : ℝ) (m : Mouse) (pm : Vector2) (c : Cloth) (i j : ℕ) :
    ((phase1Step dt m pm c i).points.getD j default).initial_position =
      (c.points.getD j default).initial_position := by
  simp only [phase1Step]
  rw [getD_set]
  split
  · rename_i hij
    obtain ⟨rfl, hlt⟩ := hij
    rw [Point.update_fst_initial_eq]
    split
    · split
      · rfl
      · split
        · exact (break_sticks_fst _ _).2.2.1
        · rfl
    · rfl
  · rfl

/-! ### Phase-1 fold lemmas -/

theorem phase1Go_cons (dt : ℝ) (m : Mouse) (pm : Vector2) (c : Cloth) (i : ℕ)
    (is : List ℕ) :
    phase1Go dt m pm c (i :: is) = phase1Go dt m pm (phase1Step dt m pm c i) is := rfl

theorem phase1Go_append (dt : ℝ) (m : Mouse) (pm : Vector2) (c : Cloth)
    (is js : List ℕ) :
    phase1Go dt m pm c (is ++ js) = phase1Go dt m pm (phase1Go dt m pm c is) js := by
  simp [phase1Go, List.foldl_append]

theorem phase1Go_stickList (dt : ℝ) (m : Mouse) (pm : Vector2) :
    ∀ (is : List ℕ) (c : Cloth), (phase1Go dt m pm c is).stickList = c.stickList
  | [], c => rfl
  | i :: is, c => by
    rw [phase1Go_cons, phase1Go_stickList dt m pm is, phase1Step_stickList]

theorem phase1Go_drag (dt : ℝ) (m : Mouse) (pm : Vector2) :
    ∀ (is : List ℕ) (c : Cloth), (phase1Go dt m pm c is).drag = c.drag
  | [], c => rfl
  | i :: is, c => by
    rw [phase1Go_cons, phase1Go_drag dt m pm is, phase1Step_drag]

theorem phase1Go_points_length (dt : ℝ) (m : Mouse) (pm : Vector2) :
    ∀ (is : List ℕ) (c : Cloth),
      (phase1Go dt m pm c is).points.length = c.points.length
  | [], c => rfl
  | i :: is, c => by
    rw [phase1Go_cons, phase1Go_points_length dt m pm is, phase1Step_points_length]

theorem phase1Go_heap_length (dt : ℝ) (m : Mouse) (pm : Vector2) :
    ∀ (is : List ℕ) (c : Cloth),
      (phase1Go dt m pm c is).stickHeap.length = c.stickHeap.length
  | [], c => rfl
  | i :: is, c => by
    rw [phase1Go_cons, phase1Go_heap_length dt m pm is, phase1Step_heap_length]

theorem phase1Go_broken_mono (dt : ℝ) (m : Mouse) (pm : Vector2) :
    ∀ (is : List ℕ) (c : Cloth) (sid : ℕ),
      ((c.stickHeap.getD sid default)).broken = true →
      ((phase1Go dt m pm c is).stickHeap.getD sid default).broken = true
  | [], c, sid, h => h
  | i :: is, c, sid, h => by
    rw [phase1Go_cons]
    exact phase1Go_broken_mono dt m pm is _ sid (phase1Step_broken_mono dt m pm c i sid h)

theorem phase1Go_points_ne (dt : ℝ) (m : Mouse) (pm : Vector2) :
    ∀ (is : List ℕ) (c : Cloth) (j : ℕ), (∀ i ∈ is, i ≠ j) →
      (phase1Go dt m pm c is).points.getD j default = c.points.getD j default
  | [], c, j, _ => rfl
  | i :: is, c, j, h => by
    rw [phase1Go_cons, phase1Go_points_ne dt m pm is _ j (fun k hk => h k (List.mem_cons_of_mem _ hk)),
      phase1Step_points_ne dt m pm c (h i (List.mem_cons_self _ _))]

theorem phase1Go_pinned (dt : ℝ) (m : Mouse) (pm : Vector2) :
    ∀ (is : List ℕ) (c : Cloth) (j : ℕ),
      ((phase1Go dt m pm c is).points.getD j default).pinned =
        ((c.points.getD j default)).pinned
  | [], c, j => rfl
  | i :: is, c, j => by
    rw [phase1Go_cons, phase1Go_pinned dt m pm is _ j, phase1Step_pinned]

theorem phase1Go_initial (dt : ℝ) (m : Mouse) (pm : Vector2) :
    ∀ (is : List ℕ) (c : Cloth) (j : ℕ),
      ((phase1Go dt m pm c is).points.getD j default).initial_position =
        ((c.points.getD j default)).initial_position
  | [], c, j => rfl
  | i :: is, c, j => by
    rw [phase1Go_cons, phase1Go_initial dt m pm is _ j, phase1Step_initial]

/-! ### Phase-2 sweep and removal -/

theorem collectIdxs_congr : ∀ (l : List α) (q r : α → Bool) (i : ℕ),
    (∀ a ∈ l, q a = r a) → collectIdxs q l i = collectIdxs r l i
  | [], _, _, _, _ => rfl
  | a :: t, q, r, i, h => by
    simp only [collectIdxs]
    rw [h a (List.mem_cons_self _ _),
      collectIdxs_congr t q r (i + 1) (fun b hb => h b (List.mem_cons_of_mem _ hb))]

/-- Under a duplicate-free stick list, the positions phase 2 collects for
removal are exactly the positions of the sticks whose `broken` flag is set
when phase 2 starts (a stick's flag is only ever written by its own visit,
and `broken` is checked before `Stick::update` runs on it). -/
theorem phase2_toRemove : ∀ (l : List ℕ) (pts : List Point) (heap : List Stick) (i : ℕ),
    l.Nodup →
    ((phase2 pts heap l i).2).2 =
      collectIdxs (fun sid => ((heap.getD sid default)).broken) l i
  | [], _, _, _, _ => rfl
  | sid :: rest, pts, heap, i, h => by
    simp only [phase2, collectIdxs]
    congr 1
    rw [phase2_toRemove rest _ _ (i + 1) (List.nodup_cons.mp h).2]
    refine collectIdxs_congr rest _ _ (i + 1) (fun a ha => ?_)
    rw [getD_set_ne _ _ _ (fun he => (List.nodup_cons.mp h).1 (by rw [he]; exact ha))]

theorem collectIdxs_shift : ∀ (l : List α) (q : α → Bool) (i : ℕ),
    collectIdxs q l (i + 1) = (collectIdxs q l i).map (· + 1)
  | [], _, _ => rfl
  | a :: t, q, i => by
    simp only [collectIdxs, List.map_append]
    congr 1
    · split <;> rfl
    · exact collectIdxs_shift t q (i + 1)

theorem foldl_eraseIdx_shift : ∀ (idxs : List ℕ) (l : List α) (a : α),
    (idxs.map (· + 1)).foldl (fun acc i => acc.eraseIdx i) (a :: l) =
      a :: idxs.foldl (fun acc i => acc.eraseIdx i) l
  | [], _, _ => rfl
  | i :: idxs, l, a => by
    simp only [List.map_cons, List.foldl_cons, List.eraseIdx_cons_succ]
    exact foldl_eraseIdx_shift idxs _ _

/-- Removing the collected positions in descending order is exactly
filtering the list by the collection predicate, preserving the relative
order of the survivors. -/
theorem remove_sticks_collect : ∀ (l : List ℕ) (q : ℕ → Bool),
    Cloth.remove_sticks l (collectIdxs q l 0) = l.filter (fun a => !q a)
  | [], _ => rfl
  | a :: t, q => by
    have ht := remove_sticks_collect t q
    simp only [Cloth.remove_sticks] at ht ⊢
    simp only [collectIdxs, collectIdxs_shift t q 0]
    rw [List.reverse_append, ← List.map_reverse, List.foldl_append,
      foldl_eraseIdx_shift, ht]
    by_cases hqa : q a
    · simp [hqa]
    · simp [hqa]

theorem length_filter_not : ∀ (l : List α) (q : α → Bool),
    (l.filter (fun a => !q a)).length = l.length - l.countP q
  | [], _ => rfl
  | a :: t, q => by
    have hle := List.countP_le_length (p := q) (l := t)
    cases hqa : q a <;>
      (simp [List.filter_cons, List.countP_cons, hqa, length_filter_not t q]; try omega)

/-- The stick list surviving a full `Cloth::update` is the filter of the
incoming stick list by the `broken` flags as they stand when phase 2 begins
(i.e. right after phase 1). -/
theorem update_stickList (c : Cloth) (dt : ℝ) (m : Mouse) (pm : Vector2)
    (h : c.stickList.Nodup) :
    (c.update dt m pm).stickList =
      c.stickList.filter
        (fun sid => !(((phase1 c dt m pm).stickHeap.getD sid default)).broken) := by
  have hsl : (phase1 c dt m pm).stickList = c.stickList :=
    phase1Go_stickList dt m pm _ c
  simp only [Cloth.update]
  rw [hsl, phase2_toRemove _ _ _ _ h, remove_sticks_collect]

theorem update_stickList_nodup (c : Cloth) (dt : ℝ) (m : Mouse) (pm : Vector2)
    (h : c.stickList.Nodup) : ((c.update dt m pm).stickList).Nodup := by
  rw [update_stickList c dt m pm h]
  exact h.filter _

/-! ### Pinned points through phase 1 -/

theorem phase1Step_pinned_self (dt : ℝ) (m : Mouse) (pm : Vector2) (c : Cloth) (i : ℕ)
    (hlen : i < c.points.length)
    (hp : ((c.points.getD i default)).pinned = true) :
    ((phase1Step dt m pm c i).points.getD i default).position =
      ((c.points.getD i default)).initial_position := by
  simp only [phase1Step]
  rw [getD_set_self _ _ _ hlen]
  split
  · split
    · rw [Point.update_fst_pinned _ _ _ _ _ _ hp]
    · split
      · rw [Point.update_fst_pinned _ _ _ _ _ _ (((break_sticks_fst _ _).2.2.2).trans hp)]
        exact (break_sticks_fst _ _).2.2.1
      · rw [Point.update_fst_pinned _ _ _ _ _ _ hp]
  · rw [Point.update_fst_pinned _ _ _ _ _ _ hp]

/-- After the phase-1 point loop, every pinned point sits exactly at its
initial position (the pin restore of `Point::update`). -/
theorem phase1_pinned_position (c : Cloth) (dt : ℝ) (m : Mouse) (pm : Vector2) (i : ℕ)
    (h : ((phase1 c dt m pm).points.getD i default).pinned = true) :
    ((phase1 c dt m pm).points.getD i default).position =
      ((phase1 c dt m pm).points.getD i default).initial_position := by
  by_cases hlen : i < c.points.length
  case neg =>
    exfalso
    have hl2 : (phase1 c dt m pm).points.length = c.points.length :=
      phase1Go_points_length dt m pm _ c
    rw [getD_default_of_le _ _ (by omega)] at h
    exact absurd h (by simp [default])
  case pos =>
    have h1 : (i + 1) + (c.points.length - (i + 1)) = c.points.length := by omega
    have hsplit : List.range c.points.length =
        (List.range i ++ [i]) ++ List.range' (i + 1) (c.points.length - (i + 1)) := by
      have ha : List.range' 0 (i + 1) ++ List.range' (i + 1) (c.points.length - (i + 1))
          = List.range' 0 (c.points.length - (i + 1) + (i + 1)) := by
        simpa using List.range'_append_1 0 (i + 1) (c.points.length - (i + 1))
      have h2 : c.points.length - (i + 1) + (i + 1) = c.points.length := by omega
      rw [← List.range_succ, List.range_eq_range', List.range_eq_range', ha, h2]
    have hphase : phase1 c dt m pm =
        phase1Go dt m pm
          (phase1Step dt m pm (phase1Go dt m pm c (List.range i)) i)
          (List.range' (i + 1) (c.points.length - (i + 1))) := by
      show phase1Go dt m pm c (List.range c.points.length) = _
      rw [hsplit, phase1Go_append, phase1Go_append]
      rfl
    set c1 := phase1Go dt m pm c (List.range i) with hc1
    have hne : ∀ k ∈ List.range' (i + 1) (c.points.length - (i + 1)), k ≠ i := by
      intro k hk
      have := List.mem_range'_1.mp hk
      omega
    have htail : (phase1 c dt m pm).points.getD i default =
        ((phase1Step dt m pm c1 i).points.getD i default) := by
      rw [hphase]
      exact phase1Go_points_ne dt m pm _ _ i hne
    have hlen1 : i < c1.points.length := by
      rw [hc1, phase1Go_points_length]; exact hlen
    have hp1 : ((c1.points.getD i default)).pinned = true := by
      have := htail ▸ h
      rw [phase1Step_pinned] at this
      exact this
    rw [htail, phase1Step_pinned_self dt m pm c1 i hlen1 hp1, phase1Step_initial]

/-! ### Highlight propagation through phase 1 (no tear in play) -/

theorem phase1Step_slots (dt : ℝ) (m : Mouse) (pm : Vector2) (c : Cloth) (i j : ℕ)
    (hr : m.rightDown = false) :
    ((phase1Step dt m pm c i).points.getD j default).stick0 =
        ((c.points.getD j default)).stick0 ∧
    ((phase1Step dt m pm c i).points.getD j default).stick1 =
        ((c.points.getD j default)).stick1 := by
  simp only [phase1Step, hr, Bool.false_eq_true, if_false]
  rw [getD_set]
  split
  · rename_i hij
    obtain ⟨rfl, hlt⟩ := hij
    rw [Point.update_fst_stick0, Point.update_fst_stick1]
    constructor
    · split
      · split
        · rfl
        · rfl
      · rfl
    · split
      · split
        · rfl
        · rfl
      · rfl
  · exact ⟨rfl, rfl⟩

theorem phase1Step_heap_noTear (dt : ℝ) (m : Mouse) (pm : Vector2) (c : Cloth) (i : ℕ)
    (hr : m.rightDown = false) :
    (phase1Step dt m pm c i).stickHeap =
      setSelected
        (setSelected c.stickHeap ((c.points.getD i default)).stick0
          (selStatus m (c.points.getD i default)))
        ((c.points.getD i default)).stick1
        (selStatus m (c.points.getD i default)) := by
  simp only [phase1Step, hr, Bool.false_eq_true, if_false, Point.update_snd, selStatus]
  split
  · split
    · rfl
    · rfl
  · rfl

theorem phase1Go_slots (dt : ℝ) (m : Mouse) (pm : Vector2) :
    ∀ (is : List ℕ) (c : Cloth) (k : ℕ), m.rightDown = false →
      ((phase1Go dt m pm c is).points.getD k default).stick0 =
          ((c.points.getD k default)).stick0 ∧
      ((phase1Go dt m pm c is).points.getD k default).stick1 =
          ((c.points.getD k default)).stick1
  | [], _, _, _ => ⟨rfl, rfl⟩
  | i :: is, c, k, hr => by
    rw [phase1Go_cons]
    have h1 := phase1Go_slots dt m pm is (phase1Step dt m pm c i) k hr
    have h2 := phase1Step_slots dt m pm c i k hr
    exact ⟨h1.1.trans h2.1, h1.2.trans h2.2⟩

theorem phase1Go_heap_notHeld (dt : ℝ) (m : Mouse) (pm : Vector2) (sid : ℕ) :
    ∀ (is : List ℕ) (c : Cloth), m.rightDown = false →
      (∀ i ∈ is, ¬ ((c.points.getD i default)).holds sid) →
      (phase1Go dt m pm c is).stickHeap.getD sid default =
        c.stickHeap.getD sid default
  | [], _, _, _ => rfl
  | i :: is, c, hr, h => by
    rw [phase1Go_cons]
    have hni := h i (List.mem_cons_self _ _)
    have hstep : (phase1Step dt m pm c i).stickHeap.getD sid default =
        c.stickHeap.getD sid default := by
      rw [phase1Step_heap_noTear dt m pm c i hr, getD_setSelected, getD_setSelected]
      rw [if_neg (fun hc => hni (Or.inr hc.1)), if_neg (fun hc => hni (Or.inl hc.1))]
    rw [phase1Go_heap_notHeld dt m pm sid is _ hr (fun k hk hh => ?_), hstep]
    have hs := phase1Step_slots dt m pm c i k hr
    exact h k (List.mem_cons_of_mem _ hk)
      (by unfold Point.holds at hh ⊢; rw [hs.1, hs.2] at hh; exact hh)

theorem phase1Go_heap_lastHolder (dt : ℝ) (m : Mouse) (pm : Vector2) (sid j : ℕ)
    (is1 is2 : List ℕ) (c : Cloth) (hr : m.rightDown = false)
    (hsid : sid < c.stickHeap.length)
    (h1 : ∀ i ∈ is1, i ≠ j)
    (hj : ((c.points.getD j default)).holds sid)
    (h2 : ∀ k ∈ is2, ¬ ((c.points.getD k default)).holds sid) :
    ((phase1Go dt m pm c (is1 ++ j :: is2)).stickHeap.getD sid default).selected =
      selStatus m (c.points.getD j default) := by
  rw [phase1Go_append, phase1Go_cons]
  have hpj : (phase1Go dt m pm c is1).points.getD j default = c.points.getD j default :=
    phase1Go_points_ne dt m pm is1 c j h1
  have hslots1 := fun k => phase1Go_slots dt m pm is1 c k hr
  have hslots2 := fun k => phase1Step_slots dt m pm (phase1Go dt m pm c is1) j k hr
  rw [phase1Go_heap_notHeld dt m pm sid is2 _ hr (fun k hk hh => ?_)]
  · rw [phase1Step_heap_noTear dt m pm _ j hr, hpj]
    have hlen1 : sid < (phase1Go dt m pm c is1).stickHeap.length := by
      rw [phase1Go_heap_length]; exact hsid
    rw [getD_setSelected]
    by_cases hb1 : ((c.points.getD j default)).stick1 = some sid
    · rw [if_pos ⟨hb1, by rw [length_setSelected]; exact hlen1⟩]
    · cases hj with
      | inl h0 =>
        rw [if_neg (fun hc => hb1 hc.1), getD_setSelected, if_pos ⟨h0, hlen1⟩]
      | inr h1' => exact absurd h1' hb1
  · refine h2 k hk ?_
    unfold Point.holds at hh ⊢
    rw [(hslots2 k).1, (hslots2 k).2, (hslots1 k).1, (hslots1 k).2] at hh
    exact hh

/-! ### The constraint step in isolation -/

theorem updateState_snd (pts : List Point) (st : Stick) :
    ((Stick.updateState pts st)).2 =
      if st.length * (1 + st.elasticity) <
          ((pts.getD st.p1 default).position - (pts.getD st.p2 default).position).magnitude
      then { st with broken := true } else st := rfl

theorem updateState_positions (pts : List Point) (st : Stick)
    (hne : st.p1 ≠ st.p2) (h1 : st.p1 < pts.length) (h2 : st.p2 < pts.length) :
    (((Stick.updateState pts st)).1.getD st.p1 default).position =
        (pts.getD st.p1 default).position +
          ((pts.getD st.p1 default).position - (pts.getD st.p2 default).position) *
            ((st.length -
              ((pts.getD st.p1 default).position - (pts.getD st.p2 default).position).magnitude) /
              ((pts.getD st.p1 default).position - (pts.getD st.p2 default).position).magnitude) *
            (0.5 : ℝ) ∧
    (((Stick.updateState pts st)).1.getD st.p2 default).position =
        (pts.getD st.p2 default).position -
          ((pts.getD st.p1 default).position - (pts.getD st.p2 default).position) *
            ((st.length -
              ((pts.getD st.p1 default).position - (pts.getD st.p2 default).position).magnitude) /
              ((pts.getD st.p1 default).position - (pts.getD st.p2 default).position).magnitude) *
            (0.5 : ℝ) ∧
    ∀ k, k ≠ st.p1 → k ≠ st.p2 →
      ((Stick.updateState pts st)).1.getD k default = pts.getD k default := by
  have hlen : st.length = (if st.length * (1 + st.elasticity) <
      ((pts.getD st.p1 default).position - (pts.getD st.p2 default).position).magnitude
      then { st with broken := true } else st).length := by
    split <;> rfl
  simp only [Stick.updateState]
  refine ⟨?_, ?_, ?_⟩
  · rw [getD_set_ne _ _ _ (Ne.symm hne), getD_set_self _ _ _ h1, ← hlen]
  · rw [getD_set_self _ _ _ (by rw [List.length_set]; exact h2),
      getD_set_ne _ _ _ hne, ← hlen]
  · intro k hk1 hk2
    rw [getD_set_ne _ _ _ (Ne.symm hk2), getD_set_ne _ _ _ (Ne.symm hk1)]

/-- After the correction the two endpoints sit at distance exactly
`st.length` apart (in exact real arithmetic). -/
theorem updateState_distance (pts : List Point) (st : Stick)
    (hne : st.p1 ≠ st.p2) (h1 : st.p1 < pts.length) (h2 : st.p2 < pts.length)
    (hl : 0 ≤ st.length)
    (hd : 0 < ((pts.getD st.p1 default).position - (pts.getD st.p2 default).position).magnitude) :
    ((((Stick.updateState pts st)).1.getD st.p1 default).position -
        (((Stick.updateState pts st)).1.getD st.p2 default).position).magnitude
      = st.length := by
  obtain ⟨hp1, hp2, _⟩ := updateState_positions pts st hne h1 h2
  set q1 := (pts.getD st.p1 default).position with hq1
  set q2 := (pts.getD st.p2 default).position with hq2
  set dist := (q1 - q2).magnitude with hdist
  have hdist0 : dist ≠ 0 := ne_of_gt hd
  have hx : ((((Stick.updateState pts st)).1.getD st.p1 default).position -
      (((Stick.updateState pts st)).1.getD st.p2 default).position).x
        = (q1 - q2).x * (st.length / dist) := by
    rw [hp1, hp2]
    show q1.x + (q1 - q2).x * ((st.length - dist) / dist) * (0.5 : ℝ) -
        (q2.x - (q1 - q2).x * ((st.length - dist) / dist) * (0.5 : ℝ)) = _
    show q1.x + (q1.x - q2.x) * ((st.length - dist) / dist) * (0.5 : ℝ) -
        (q2.x - (q1.x - q2.x) * ((st.length - dist) / dist) * (0.5 : ℝ)) =
      (q1.x - q2.x) * (st.length / dist)
    field_simp
    ring
  have hy : ((((Stick.updateState pts st)).1.getD st.p1 default).position -
      (((Stick.updateState pts st)).1.getD st.p2 default).position).y
        = (q1 - q2).y * (st.length / dist) := by
    rw [hp1, hp2]
    show q1.y + (q1.y - q2.y) * ((st.length - dist) / dist) * (0.5 : ℝ) -
        (q2.y - (q1.y - q2.y) * ((st.length - dist) / dist) * (0.5 : ℝ)) =
      (q1.y - q2.y) * (st.length / dist)
    field_simp
    ring
  have hc : (0 : ℝ) ≤ st.length / dist := div_nonneg hl (le_of_lt hd)
  unfold Vector2.magnitude Vector2.magnitude_squared at hdist ⊢
  rw [hx, hy]
  have hsq : (q1 - q2).x * (st.length / dist) * ((q1 - q2).x * (st.length / dist)) +
      (q1 - q2).y * (st.length / dist) * ((q1 - q2).y * (st.length / dist)) =
      (st.length / dist) * (st.length / dist) *
        ((q1 - q2).x * (q1 - q2).x + (q1 - q2).y * (q1 - q2).y) := by ring
  rw [hsq, Real.sqrt_mul (mul_self_nonneg _), Real.sqrt_mul_self hc, ← hdist]
  field_simp

/-! ### Claim theorems: local operations -/

/-- C3: the per-stick constraint step marks `broken = true` exactly when the
current endpoint distance exceeds `length * (1 + elasticity)`, and in either
case still applies the positional correction
`offset = (p1.position - p2.position) * ((length - dist) / dist) * 0.5`,
adding `offset` to `p1.position` and subtracting it from `p2.position`
(all other points untouched). -/
theorem claim_C3_stick_step (pts : List Point) (st : Stick)
    (hbrk : st.broken = false) (hne : st.p1 ≠ st.p2)
    (h1 : st.p1 < pts.length) (h2 : st.p2 < pts.length) :
    ((((Stick.updateState pts st)).2).broken = true ↔
      st.length * (1 + st.elasticity) <
        ((pts.getD st.p1 default).position - (pts.getD st.p2 default).position).magnitude) ∧
    (((Stick.updateState pts st)).1.getD st.p1 default).position =
        (pts.getD st.p1 default).position +
          ((pts.getD st.p1 default).position - (pts.getD st.p2 default).position) *
            ((st.length -
              ((pts.getD st.p1 default).position - (pts.getD st.p2 default).position).magnitude) /
              ((pts.getD st.p1 default).position - (pts.getD st.p2 default).position).magnitude) *
            (0.5 : ℝ) ∧
    (((Stick.updateState pts st)).1.getD st.p2 default).position =
        (pts.getD st.p2 default).position -
          ((pts.getD st.p1 default).position - (pts.getD st.p2 default).position) *
            ((st.length -
              ((pts.getD st.p1 default).position - (pts.getD st.p2 default).position).magnitude) /
              ((pts.getD st.p1 default).position - (pts.getD st.p2 default).position).magnitude) *
            (0.5 : ℝ) ∧
    ∀ k, k ≠ st.p1 → k ≠ st.p2 →
      ((Stick.updateState pts st)).1.getD k default = pts.getD k default := by
  refine ⟨?_, updateState_positions pts st hne h1 h2⟩
  rw [updateState_snd]
  split
  · rename_i hcond
    exact ⟨fun _ => hcond, fun _ => rfl⟩
  · rename_i hcond
    constructor
    · intro hb
      rw [hbrk] at hb
      exact absurd hb (by simp)
    · intro hc
      exact absurd hc hcond

/-- C4: for a non-pinned point, one integration step computes
`new_position = position + (position - prev_position)*(1 - drag)
+ F*(1 - drag)*dt*dt` (componentwise), sets `prev_position` to the old
position, and every cloth built by `Cloth::new` has `drag = 0.05`. -/
theorem claim_C4_verlet (p : Point) (heap : List Stick) (dt drag : ℝ)
    (F : Vector2) (sel : Bool) (w h : ℕ) (s sx sy : ℤ) (e : ℝ)
    (hp : p.pinned = false) :
    (((Point.update p heap dt drag F sel)).1.position.x =
        p.position.x + (p.position.x - p.prev_position.x) * (1 - drag)
          + F.x * (1 - drag) * dt * dt) ∧
    (((Point.update p heap dt drag F sel)).1.position.y =
        p.position.y + (p.position.y - p.prev_position.y) * (1 - drag)
          + F.y * (1 - drag) * dt * dt) ∧
    (((Point.update p heap dt drag F sel)).1.prev_position = p.position) ∧
    (Cloth.new w h s sx sy e).drag = 0.05 := by
  rw [Point.update_fst_free p heap dt drag F sel hp]
  exact ⟨rfl, rfl, rfl, rfl⟩

/-- C5: for a stick whose endpoints are at positive distance before the
correction, the post-correction endpoint distance is at least as close to
the rest length as the pre-correction distance was (in exact arithmetic the
post-correction distance equals the rest length). -/
theorem claim_C5_monotone_correction (pts : List Point) (st : Stick)
    (hne : st.p1 ≠ st.p2) (h1 : st.p1 < pts.length) (h2 : st.p2 < pts.length)
    (hl : 0 ≤ st.length)
    (hd : 0 < ((pts.getD st.p1 default).position - (pts.getD st.p2 default).position).magnitude) :
    |((((Stick.updateState pts st)).1.getD st.p1 default).position -
        (((Stick.updateState pts st)).1.getD st.p2 default).position).magnitude - st.length|
      ≤ |((pts.getD st.p1 default).position - (pts.getD st.p2 default).position).magnitude
          - st.length| := by
  rw [updateState_distance pts st hne h1 h2 hl hd]
  simp

/-- C8: constructing a stick with `elasticity < 0` fails fast (the assertion
aborts, modelled as `none`); for `elasticity ≥ 0` construction succeeds and
stores the endpoints, length and elasticity with `selected = false` and
`broken = false`. -/
theorem claim_C8_stick_new (p1 p2 : ℕ) (len e : ℝ) :
    (e < 0 → Stick.new p1 p2 len e = none) ∧
    (0 ≤ e → Stick.new p1 p2 len e =
      some { p1 := p1, p2 := p2, length := len, elasticity := e,
             selected := false, broken := false }) := by
  constructor
  · intro he
    rw [Stick.new, if_neg (not_le.mpr he)]
  · intro he
    rw [Stick.new, if_pos he]
    rfl

/-- C6: the tear operation marks broken every stick held in the point's two
slots and clears exactly those two slots; the sticks referenced by the slots
change only in their `broken` flag, every other arena entry is untouched,
and the point's own position, previous position, initial position and pin
flag are unchanged. -/
theorem claim_C6_break_sticks (p : Point) (heap : List Stick) :
    ((p.break_sticks heap)).1.stick0 = none ∧
    ((p.break_sticks heap)).1.stick1 = none ∧
    ((p.break_sticks heap)).1.position = p.position ∧
    ((p.break_sticks heap)).1.prev_position = p.prev_position ∧
    ((p.break_sticks heap)).1.initial_position = p.initial_position ∧
    ((p.break_sticks heap)).1.pinned = p.pinned ∧
    (∀ s, (p.stick0 = some s ∨ p.stick1 = some s) → s < heap.length →
      ((p.break_sticks heap)).2.getD s default =
        { heap.getD s default with broken := true }) ∧
    (∀ s, p.stick0 ≠ some s → p.stick1 ≠ some s →
      ((p.break_sticks heap)).2.getD s default = heap.getD s default) ∧
    ((p.break_sticks heap)).2.length = heap.length := by
  have hfst := break_sticks_fst p heap
  refine ⟨?_, ?_, hfst.1, hfst.2.1, hfst.2.2.1, hfst.2.2.2, ?_, ?_, break_sticks_heap_length p heap⟩
  · unfold Point.break_sticks
    cases hs0 : p.stick0 <;> cases hs1 : p.stick1 <;> simp [hs0, hs1]
  · unfold Point.break_sticks
    cases hs0 : p.stick0 <;> cases hs1 : p.stick1 <;> simp [hs0, hs1]
  · intro s hdisj hslen
    unfold Point.break_sticks
    cases hs0 : p.stick0 with
    | none =>
      cases hs1 : p.stick1 with
      | none =>
        rcases hdisj with h | h
        · exact absurd (hs0.symm.trans h) (by simp)
        · exact absurd (hs1.symm.trans h) (by simp)
      | some b =>
        have hbs : b = s := by
          rcases hdisj with h | h
          · exact absurd (hs0.symm.trans h) (by simp)
          · exact Option.some.inj (hs1.symm.trans h)
        subst hbs
        simp only [hs1]
        rw [getD_set_self _ _ _ hslen]
    | some a =>
      have hstick1 : ({ p with stick0 := none } : Point).stick1 = p.stick1 := rfl
      cases hs1 : p.stick1 with
      | none =>
        have has : a = s := by
          rcases hdisj with h | h
          · exact Option.some.inj (hs0.symm.trans h)
          · exact absurd (hs1.symm.trans h) (by simp)
        subst has
        simp only [hstick1, hs1]
        rw [getD_set_self _ _ _ hslen]
      | some b =>
        simp only [hstick1, hs1]
        rcases hdisj with h | h
        · have has : a = s := Option.some.inj (hs0.symm.trans h)
          subst has
          by_cases hab : b = a
          · subst hab
            rw [getD_set_self _ _ _ (by rw [List.length_set]; exact hslen),
              getD_set_self _ _ _ hslen]
          · rw [getD_set_ne _ _ _ hab, getD_set_self _ _ _ hslen]
        · have hbs : b = s := Option.some.inj (hs1.symm.trans h)
          subst hbs
          rw [getD_set_self _ _ _ (by rw [List.length_set]; exact hslen)]
          by_cases hab : a = b
          · subst hab
            rw [getD_set_self _ _ _ hslen]
          · rw [getD_set_ne _ _ _ hab]
  · intro s hn0 hn1
    unfold Point.break_sticks
    cases hs0 : p.stick0 with
    | none =>
      cases hs1 : p.stick1 with
      | none => simp [hs1]
      | some b =>
        simp only [hs1]
        rw [getD_set_ne _ _ _ (fun hbs => hn1 (by rw [hs1, hbs]))]
    | some a =>
      have hstick1 : ({ p with stick0 := none } : Point).stick1 = p.stick1 := rfl
      cases hs1 : p.stick1 with
      | none =>
        simp only [hstick1, hs1]
        rw [getD_set_ne _ _ _ (fun has => hn0 (by rw [hs0, has]))]
      | some b =>
        simp only [hstick1, hs1]
        rw [getD_set_ne _ _ _ (fun hbs => hn1 (by rw [hs1, hbs])),
          getD_set_ne _ _ _ (fun has => hn0 (by rw [hs0, has]))]

/-! ### Claim theorems: whole-frame properties -/

/-- C1 (amended): for every pinned point, after the per-point phase of
`Cloth.update` (phase 1) the point's position equals its initial position
exactly; the subsequent stick-constraint phase may displace pinned
endpoints, so the equality need not survive to the end of the full update. -/
theorem claim_C1_pinned_after_phase1 (c : Cloth) (dt : ℝ) (m : Mouse) (pm : Vector2)
    (i : ℕ) (h : (((phase1 c dt m pm).points.getD i default)).pinned = true) :
    ((phase1 c dt m pm).points.getD i default).position =
      ((phase1 c dt m pm).points.getD i default).initial_position :=
  phase1_pinned_position c dt m pm i h

/-- C2 (amended): a stick whose endpoint distance exceeds
`length*(1+elasticity)` during a frame's constraint pass is marked broken in
that same frame but remains in the cloth's stick list when that
`Cloth.update` returns; any stick that is broken once an update completes is
absent from the stick list once the next `Cloth.update` completes. -/
theorem claim_C2_broken_removed_next_frame (c : Cloth) (dt dt2 : ℝ) (m m2 : Mouse)
    (pm pm2 : Vector2) (sid : ℕ) (hnd : c.stickList.Nodup)
    (hb : ((((c.update dt m pm).stickHeap.getD sid default))).broken = true) :
    sid ∉ ((c.update dt m pm).update dt2 m2 pm2).stickList := by
  have h1 : ((c.update dt m pm).stickList).Nodup := update_stickList_nodup c dt m pm hnd
  rw [update_stickList _ dt2 m2 pm2 h1]
  intro hmem
  rw [List.mem_filter] at hmem
  have hb2 : (((phase1 (c.update dt m pm) dt2 m2 pm2).stickHeap.getD sid default)).broken
      = true :=
    phase1Go_broken_mono dt2 m2 pm2 _ (c.update dt m pm) sid hb
  rw [hb2] at hmem
  exact absurd hmem.2 (by simp)

/-- C9: the end-of-frame sweep removes from the stick list exactly the
entries whose broken flag is set when the sweep collects indices (the flags
as they stand right after phase 1): the surviving list is the filter of the
incoming list by those flags, so the relative order of survivors is
preserved and the length drops by exactly the count of broken entries. -/
theorem claim_C9_sweep_removes_broken (c : Cloth) (dt : ℝ) (m : Mouse) (pm : Vector2)
    (hnd : c.stickList.Nodup) :
    (c.update dt m pm).stickList =
      c.stickList.filter
        (fun sid => !((((phase1 c dt m pm).stickHeap.getD sid default))).broken) ∧
    (c.update dt m pm).stickList.length =
      c.stickList.length -
        c.stickList.countP
          (fun sid => ((((phase1 c dt m pm).stickHeap.getD sid default))).broken) := by
  refine ⟨update_stickList c dt m pm hnd, ?_⟩
  rw [update_stickList c dt m pm hnd, length_filter_not]

/-- C10: during phase 1 each point unconditionally overwrites the selected
flag of every stick in its slots with its own selection status, so after
phase 1 a stick's selected flag equals the selection status of the
last-iterated point that holds it in a slot — not the disjunction of both
endpoints' selection. -/
theorem claim_C10_selected_last_writer (c : Cloth) (dt : ℝ) (m : Mouse) (pm : Vector2)
    (sid j : ℕ) (hr : m.rightDown = false) (hsid : sid < c.stickHeap.length)
    (hj : j < c.points.length)
    (hholds : ((c.points.getD j default)).holds sid)
    (hlast : ∀ k, j < k → k < c.points.length → ¬ ((c.points.getD k default)).holds sid) :
    ((phase1 c dt m pm).stickHeap.getD sid default).selected =
      selStatus m (c.points.getD j default) := by
  have h2 : c.points.length - (j + 1) + (j + 1) = c.points.length := by omega
  have hsplit : List.range c.points.length =
      List.range j ++ j :: List.range' (j + 1) (c.points.length - (j + 1)) := by
    have ha : List.range' 0 (j + 1) ++ List.range' (j + 1) (c.points.length - (j + 1))
        = List.range' 0 (c.points.length - (j + 1) + (j + 1)) := by
      simpa using List.range'_append_1 0 (j + 1) (c.points.length - (j + 1))
    rw [show List.range j ++ j :: List.range' (j + 1) (c.points.length - (j + 1))
          = (List.range j ++ [j]) ++ List.range' (j + 1) (c.points.length - (j + 1)) by simp,
      ← List.range_succ, List.range_eq_range', List.range_eq_range', ha, h2]
  show ((phase1Go dt m pm c (List.range c.points.length)).stickHeap.getD sid default).selected
      = selStatus m (c.points.getD j default)
  rw [hsplit]
  refine phase1Go_heap_lastHolder dt m pm sid j (List.range j)
    (List.range' (j + 1) (c.points.length - (j + 1))) c hr hsid
    (fun i hi => by have := List.mem_range.mp hi; omega)
    hholds
    (fun k hk => ?_)
  have hkb := List.mem_range'_1.mp hk
  exact hlast k (by omega) (by omega)

/-! ### Concrete scenarios (2-wide, 1-high cloth, cursor far away) -/

theorem Vector2.add_def (a b : Vector2) : a + b = ⟨a.x + b.x, a.y + b.y⟩ := rfl

theorem Vector2.sub_def (a b : Vector2) : a - b = ⟨a.x - b.x, a.y - b.y⟩ := rfl

theorem Vector2.smul_def (v : Vector2) (c : ℝ) : v * c = ⟨v.x * c, v.y * c⟩ := rfl

theorem Vector2.smul_def2 (c : ℝ) (v : Vector2) : c * v = ⟨v.x * c, v.y * c⟩ := rfl

theorem newA : (Cloth.new 2 1 10 0 0 10) =
    { points := [
        { position := ⟨0, 0⟩, prev_position := ⟨0, 0⟩, initial_position := ⟨0, 0⟩,
          stick0 := some 0, stick1 := none, pinned := true },
        { position := ⟨10, 0⟩, prev_position := ⟨10, 0⟩, initial_position := ⟨10, 0⟩,
          stick0 := some 0, stick1 := none, pinned := false }],
      stickHeap := [{ p1 := 1, p2 := 0, length := 10, elasticity := 10,
                      selected := false, broken := false }],
      stickList := [0], drag := 0.05, elasticity := 10 } := by
  norm_num [Cloth.new, Cloth.newStep, Point.new, Point.add_stick, Point.pin, Stick.make,
    List.range_succ, List.foldl_cons, List.foldl_nil]

theorem phase1A (dt : ℝ) : phase1
    { points := [
        { position := ⟨0, 0⟩, prev_position := ⟨0, 0⟩, initial_position := ⟨0, 0⟩,
          stick0 := some 0, stick1 := none, pinned := true },
        { position := ⟨10, 0⟩, prev_position := ⟨10, 0⟩, initial_position := ⟨10, 0⟩,
          stick0 := some 0, stick1 := none, pinned := false }],
      stickHeap := [{ p1 := 1, p2 := 0, length := 10, elasticity := 10,
                      selected := false, broken := false }],
      stickList := [0], drag := 0.05, elasticity := 10 }
    dt ⟨⟨1000, 1000⟩, false, false⟩ ⟨0, 0⟩ =
    { points := [
        { position := ⟨0, 0⟩, prev_position := ⟨0, 0⟩, initial_position := ⟨0, 0⟩,
          stick0 := some 0, stick1 := none, pinned := true },
        { position := ⟨10, 931.95 * (dt * dt)⟩, prev_position := ⟨10, 0⟩,
          initial_position := ⟨10, 0⟩,
          stick0 := some 0, stick1 := none, pinned := false }],
      stickHeap := [{ p1 := 1, p2 := 0, length := 10, elasticity := 10,
                      selected := false, broken := false }],
      stickList := [0], drag := 0.05, elasticity := 10 } := by
  norm_num [phase1, phase1Go, phase1Step, Point.update, setSelected, Point.break_sticks,
    Vector2.magnitude_squared, GRAVITY, CURSOR_RADIUS, List.range_succ,
    List.foldl_cons, List.foldl_nil, List.getD_cons_zero, List.getD_cons_succ,
    Vector2.add_def, Vector2.sub_def, Vector2.smul_def, Vector2.smul_def2,
    Vector2.mk.injEq]
  ring

theorem phase1A_dtA : phase1 (Cloth.new 2 1 10 0 0 10)
    (Real.sqrt (7.5 / 931.95)) ⟨⟨1000, 1000⟩, false, false⟩ ⟨0, 0⟩ =
    { points := [
        { position := ⟨0, 0⟩, prev_position := ⟨0, 0⟩, initial_position := ⟨0, 0⟩,
          stick0 := some 0, stick1 := none, pinned := true },
        { position := ⟨10, 7.5⟩, prev_position := ⟨10, 0⟩, initial_position := ⟨10, 0⟩,
          stick0 := some 0, stick1 := none, pinned := false }],
      stickHeap := [{ p1 := 1, p2 := 0, length := 10, elasticity := 10,
                      selected := false, broken := false }],
      stickList := [0], drag := 0.05, elasticity := 10 } := by
  rw [newA, phase1A, Real.mul_self_sqrt (by norm_num : (0:ℝ) ≤ 7.5 / 931.95)]
  norm_num

theorem phase2A : phase2
    [ { position := ⟨0, 0⟩, prev_position := ⟨0, 0⟩, initial_position := ⟨0, 0⟩,
        stick0 := some 0, stick1 := none, pinned := true },
      { position := ⟨10, 7.5⟩, prev_position := ⟨10, 0⟩, initial_position := ⟨10, 0⟩,
        stick0 := some 0, stick1 := none, pinned := false } ]
    [ { p1 := 1, p2 := 0, length := 10, elasticity := 10,
        selected := false, broken := false } ]
    [0] 0 =
    ( [ { position := ⟨1, 0.75⟩, prev_position := ⟨0, 0⟩, initial_position := ⟨0, 0⟩,
          stick0 := some 0, stick1 := none, pinned := true },
        { position := ⟨9, 6.75⟩, prev_position := ⟨10, 0⟩, initial_position := ⟨10, 0⟩,
          stick0 := some 0, stick1 := none, pinned := false } ],
      [ { p1 := 1, p2 := 0, length := 10, elasticity := 10,
          selected := false, broken := false } ],
      ([] : List ℕ)) := by
  have h625 : Real.sqrt 625 = 25 := by
    rw [show (625:ℝ) = 25 ^ 2 by norm_num, Real.sqrt_sq (by norm_num : (0:ℝ) ≤ 25)]
  have h4 : Real.sqrt 4 = 2 := by
    rw [show (4:ℝ) = 2 ^ 2 by norm_num, Real.sqrt_sq (by norm_num : (0:ℝ) ≤ 2)]
  norm_num [h625, h4, phase2, Stick.updateState, Vector2.magnitude,
    Vector2.magnitude_squared, List.getD_cons_zero, List.getD_cons_succ,
    List.foldl_cons, List.foldl_nil,
    Vector2.add_def, Vector2.sub_def, Vector2.smul_def, Vector2.smul_def2,
    Vector2.mk.injEq]

theorem updateA : Cloth.update (Cloth.new 2 1 10 0 0 10)
    (Real.sqrt (7.5 / 931.95)) ⟨⟨1000, 1000⟩, false, false⟩ ⟨0, 0⟩ =
    { points := [
        { position := ⟨1, 0.75⟩, prev_position := ⟨0, 0⟩, initial_position := ⟨0, 0⟩,
          stick0 := some 0, stick1 := none, pinned := true },
        { position := ⟨9, 6.75⟩, prev_position := ⟨10, 0⟩, initial_position := ⟨10, 0⟩,
          stick0 := some 0, stick1 := none, pinned := false }],
      stickHeap := [{ p1 := 1, p2 := 0, length := 10, elasticity := 10,
                      selected := false, broken := false }],
      stickList := [0], drag := 0.05, elasticity := 10 } := by
  simp only [Cloth.update, phase1A_dtA, phase2A, Cloth.remove_sticks,
    List.reverse_nil, List.foldl_nil]

/-- C1 is false as stated: on a 2-point cloth, after one full `Cloth.update`
(with the cursor far away and no buttons) the pinned point has been
displaced by the stick-constraint phase, so its position differs from its
initial position. -/
theorem claim_C1_counterexample :
    (((Cloth.update (Cloth.new 2 1 10 0 0 10) (Real.sqrt (7.5 / 931.95))
        ⟨⟨1000, 1000⟩, false, false⟩ ⟨0, 0⟩).points.getD 0 default)).pinned = true ∧
    (((Cloth.update (Cloth.new 2 1 10 0 0 10) (Real.sqrt (7.5 / 931.95))
        ⟨⟨1000, 1000⟩, false, false⟩ ⟨0, 0⟩).points.getD 0 default)).position ≠
      (((Cloth.update (Cloth.new 2 1 10 0 0 10) (Real.sqrt (7.5 / 931.95))
        ⟨⟨1000, 1000⟩, false, false⟩ ⟨0, 0⟩).points.getD 0 default)).initial_position := by
  rw [updateA]
  refine ⟨rfl, fun h => ?_⟩
  rw [List.getD_cons_zero] at h
  have hx : (1 : ℝ) = 0 := congrArg Vector2.x h
  norm_num at hx

theorem new1x1 : (Cloth.new 1 1 10 5 5 10) =
    { points := [
        { position := ⟨5, 5⟩, prev_position := ⟨5, 5⟩, initial_position := ⟨5, 5⟩,
          stick0 := none, stick1 := none, pinned := true }],
      stickHeap := [], stickList := [], drag := 0.05, elasticity := 10 } := by
  norm_num [Cloth.new, Cloth.newStep, Point.new, Point.add_stick, Point.pin, Stick.make,
    List.range_succ, List.foldl_cons, List.foldl_nil]

theorem phase1_1x1 : phase1
    { points := [
        { position := ⟨5, 5⟩, prev_position := ⟨5, 5⟩, initial_position := ⟨5, 5⟩,
          stick0 := none, stick1 := none, pinned := true }],
      stickHeap := [], stickList := [], drag := 0.05, elasticity := 10 }
    1 ⟨⟨1000, 1000⟩, false, false⟩ ⟨0, 0⟩ =
    { points := [
        { position := ⟨5, 5⟩, prev_position := ⟨5, 5⟩, initial_position := ⟨5, 5⟩,
          stick0 := none, stick1 := none, pinned := true }],
      stickHeap := [], stickList := [], drag := 0.05, elasticity := 10 } := by
  norm_num [phase1, phase1Go, phase1Step, Point.update, setSelected, Point.break_sticks,
    Vector2.magnitude_squared, GRAVITY, CURSOR_RADIUS, List.range_succ,
    List.foldl_cons, List.foldl_nil, List.getD_cons_zero, List.getD_cons_succ,
    Vector2.add_def, Vector2.sub_def, Vector2.smul_def, Vector2.smul_def2,
    Vector2.mk.injEq]

/-- C1 (amended) witness: on a 1-point cloth the single point is pinned
after phase 1 and its position equals its initial position. -/
theorem claim_C1_witness :
    (((phase1 (Cloth.new 1 1 10 5 5 10) 1 ⟨⟨1000, 1000⟩, false, false⟩ ⟨0, 0⟩).points.getD
        0 default)).pinned = true ∧
    ((phase1 (Cloth.new 1 1 10 5 5 10) 1 ⟨⟨1000, 1000⟩, false, false⟩ ⟨0, 0⟩).points.getD
        0 default).position =
      ((phase1 (Cloth.new 1 1 10 5 5 10) 1 ⟨⟨1000, 1000⟩, false, false⟩ ⟨0, 0⟩).points.getD
        0 default).initial_position := by
  have hp : (((phase1 (Cloth.new 1 1 10 5 5 10) 1 ⟨⟨1000, 1000⟩, false, false⟩
      ⟨0, 0⟩).points.getD 0 default)).pinned = true := by
    rw [new1x1, phase1_1x1]
    rfl
  exact ⟨hp, claim_C1_pinned_after_phase1 _ _ _ _ 0 hp⟩

/-! ### Concrete overstretch scenario (C2) -/

theorem phase1B_dtB : phase1 (Cloth.new 2 1 10 0 0 10)
    (Real.sqrt (124.8 / 931.95)) ⟨⟨1000, 1000⟩, false, false⟩ ⟨0, 0⟩ =
    { points := [
        { position := ⟨0, 0⟩, prev_position := ⟨0, 0⟩, initial_position := ⟨0, 0⟩,
          stick0 := some 0, stick1 := none, pinned := true },
        { position := ⟨10, 124.8⟩, prev_position := ⟨10, 0⟩, initial_position := ⟨10, 0⟩,
          stick0 := some 0, stick1 := none, pinned := false }],
      stickHeap := [{ p1 := 1, p2 := 0, length := 10, elasticity := 10,
                      selected := false, broken := false }],
      stickList := [0], drag := 0.05, elasticity := 10 } := by
  rw [newA, phase1A, Real.mul_self_sqrt (by norm_num : (0:ℝ) ≤ 124.8 / 931.95)]
  norm_num

theorem phase2B : phase2
    [ { position := ⟨0, 0⟩, prev_position := ⟨0, 0⟩, initial_position := ⟨0, 0⟩,
        stick0 := some 0, stick1 := none, pinned := true },
      { position := ⟨10, 124.8⟩, prev_position := ⟨10, 0⟩, initial_position := ⟨10, 0⟩,
        stick0 := some 0, stick1 := none, pinned := false } ]
    [ { p1 := 1, p2 := 0, length := 10, elasticity := 10,
        selected := false, broken := false } ]
    [0] 0 =
    ( [ { position := ⟨1440 / 313, 89856 / 1565⟩, prev_position := ⟨0, 0⟩,
          initial_position := ⟨0, 0⟩,
          stick0 := some 0, stick1 := none, pinned := true },
        { position := ⟨1690 / 313, 105456 / 1565⟩, prev_position := ⟨10, 0⟩,
          initial_position := ⟨10, 0⟩,
          stick0 := some 0, stick1 := none, pinned := false } ],
      [ { p1 := 1, p2 := 0, length := 10, elasticity := 10,
          selected := false, broken := true } ],
      ([] : List ℕ)) := by
  have h391876 : Real.sqrt 391876 = 626 := by
    rw [show (391876:ℝ) = 626 ^ 2 by norm_num, Real.sqrt_sq (by norm_num : (0:ℝ) ≤ 626)]
  have h25 : Real.sqrt 25 = 5 := by
    rw [show (25:ℝ) = 5 ^ 2 by norm_num, Real.sqrt_sq (by norm_num : (0:ℝ) ≤ 5)]
  norm_num [h391876, h25, phase2, Stick.updateState, Vector2.magnitude,
    Vector2.magnitude_squared, List.getD_cons_zero, List.getD_cons_succ,
    List.foldl_cons, List.foldl_nil,
    Vector2.add_def, Vector2.sub_def, Vector2.smul_def, Vector2.smul_def2,
    Vector2.mk.injEq]

theorem updateB : Cloth.update (Cloth.new 2 1 10 0 0 10)
    (Real.sqrt (124.8 / 931.95)) ⟨⟨1000, 1000⟩, false, false⟩ ⟨0, 0⟩ =
    { points := [
        { position := ⟨1440 / 313, 89856 / 1565⟩, prev_position := ⟨0, 0⟩,
          initial_position := ⟨0, 0⟩,
          stick0 := some 0, stick1 := none, pinned := true },
        { position := ⟨1690 / 313, 105456 / 1565⟩, prev_position := ⟨10, 0⟩,
          initial_position := ⟨10, 0⟩,
          stick0 := some 0, stick1 := none, pinned := false }],
      stickHeap := [{ p1 := 1, p2 := 0, length := 10, elasticity := 10,
                      selected := false, broken := true }],
      stickList := [0], drag := 0.05, elasticity := 10 } := by
  simp only [Cloth.update, phase1B_dtB, phase2B, Cloth.remove_sticks,
    List.reverse_nil, List.foldl_nil]

/-- C2 is false as stated: with a large enough dt the single stick's
endpoint distance exceeds `length*(1+elasticity)` during the constraint
pass, the stick is marked broken that frame, yet when that same
`Cloth.update` call returns the stick is still in the cloth's stick list
(it is removed only by the next update). -/
theorem claim_C2_counterexample :
    (10 : ℝ) * (1 + 10) <
      ((((phase1 (Cloth.new 2 1 10 0 0 10) (Real.sqrt (124.8 / 931.95))
          ⟨⟨1000, 1000⟩, false, false⟩ ⟨0, 0⟩).points.getD 1 default)).position -
        (((phase1 (Cloth.new 2 1 10 0 0 10) (Real.sqrt (124.8 / 931.95))
          ⟨⟨1000, 1000⟩, false, false⟩ ⟨0, 0⟩).points.getD 0 default)).position).magnitude ∧
    ((((Cloth.update (Cloth.new 2 1 10 0 0 10) (Real.sqrt (124.8 / 931.95))
        ⟨⟨1000, 1000⟩, false, false⟩ ⟨0, 0⟩).stickHeap.getD 0 default))).broken = true ∧
    (Cloth.update (Cloth.new 2 1 10 0 0 10) (Real.sqrt (124.8 / 931.95))
        ⟨⟨1000, 1000⟩, false, false⟩ ⟨0, 0⟩).stickList = [0] := by
  have h391876 : Real.sqrt 391876 = 626 := by
    rw [show (391876:ℝ) = 626 ^ 2 by norm_num, Real.sqrt_sq (by norm_num : (0:ℝ) ≤ 626)]
  have h25 : Real.sqrt 25 = 5 := by
    rw [show (25:ℝ) = 5 ^ 2 by norm_num, Real.sqrt_sq (by norm_num : (0:ℝ) ≤ 5)]
  refine ⟨?_, ?_, ?_⟩
  · rw [phase1B_dtB]
    norm_num [h391876, h25, Vector2.magnitude, Vector2.magnitude_squared,
      List.getD_cons_zero, List.getD_cons_succ, Vector2.sub_def]
  · rw [updateB]
    rfl
  · rw [updateB]

/-- C2 (amended) witness: the overstretched stick of the concrete scenario
is broken after the first update and gone from the stick list after the
second. -/
theorem claim_C2_witness :
    (Cloth.new 2 1 10 0 0 10).stickList.Nodup ∧
    ((((Cloth.update (Cloth.new 2 1 10 0 0 10) (Real.sqrt (124.8 / 931.95))
        ⟨⟨1000, 1000⟩, false, false⟩ ⟨0, 0⟩).stickHeap.getD 0 default))).broken = true ∧
    0 ∉ ((Cloth.update (Cloth.new 2 1 10 0 0 10) (Real.sqrt (124.8 / 931.95))
        ⟨⟨1000, 1000⟩, false, false⟩ ⟨0, 0⟩).update 1
        ⟨⟨1000, 1000⟩, false, false⟩ ⟨0, 0⟩).stickList := by
  have hnd : (Cloth.new 2 1 10 0 0 10).stickList.Nodup := by
    rw [newA]
    exact List.nodup_singleton 0
  have hb : ((((Cloth.update (Cloth.new 2 1 10 0 0 10) (Real.sqrt (124.8 / 931.95))
      ⟨⟨1000, 1000⟩, false, false⟩ ⟨0, 0⟩).stickHeap.getD 0 default))).broken = true := by
    rw [updateB]
    rfl
  exact ⟨hnd, hb,
    claim_C2_broken_removed_next_frame (Cloth.new 2 1 10 0 0 10)
      (Real.sqrt (124.8 / 931.95)) 1 ⟨⟨1000, 1000⟩, false, false⟩
      ⟨⟨1000, 1000⟩, false, false⟩ ⟨0, 0⟩ ⟨0, 0⟩ 0 hnd hb⟩

/-! ### Witnesses for the remaining hypothesised claims -/

/-- C3 witness: a 2-point arena with a slack stick (distance 5, threshold
15): the iff and the positional-correction equations at a concrete input. -/
theorem claim_C3_witness :
    (({ p1 := 0, p2 := 1, length := 10, elasticity := 0.5, selected := false,
        broken := false } : Stick)).broken = false ∧
    (0 : ℕ) ≠ 1 ∧
    (((Stick.updateState
        [ { position := ⟨0, 0⟩, prev_position := ⟨0, 0⟩, initial_position := ⟨0, 0⟩,
            stick0 := none, stick1 := none, pinned := false },
          { position := ⟨3, 4⟩, prev_position := ⟨3, 4⟩, initial_position := ⟨3, 4⟩,
            stick0 := none, stick1 := none, pinned := false } ]
        { p1 := 0, p2 := 1, length := 10, elasticity := 0.5, selected := false,
          broken := false })).2.broken = true ↔
      (10 : ℝ) * (1 + 0.5) <
        (((⟨0, 0⟩ : Vector2)) - ⟨3, 4⟩).magnitude) ∧
    ((Stick.updateState
        [ { position := ⟨0, 0⟩, prev_position := ⟨0, 0⟩, initial_position := ⟨0, 0⟩,
            stick0 := none, stick1 := none, pinned := false },
          { position := ⟨3, 4⟩, prev_position := ⟨3, 4⟩, initial_position := ⟨3, 4⟩,
            stick0 := none, stick1 := none, pinned := false } ]
        { p1 := 0, p2 := 1, length := 10, elasticity := 0.5, selected := false,
          broken := false }).1.getD 0 default).position =
      (⟨0, 0⟩ : Vector2) + ((⟨0, 0⟩ : Vector2) - ⟨3, 4⟩) *
        ((10 - (((⟨0, 0⟩ : Vector2)) - ⟨3, 4⟩).magnitude) /
          (((⟨0, 0⟩ : Vector2)) - ⟨3, 4⟩).magnitude) * (0.5 : ℝ) := by
  have h := claim_C3_stick_step
    [ { position := ⟨0, 0⟩, prev_position := ⟨0, 0⟩, initial_position := ⟨0, 0⟩,
        stick0 := none, stick1 := none, pinned := false },
      { position := ⟨3, 4⟩, prev_position := ⟨3, 4⟩, initial_position := ⟨3, 4⟩,
        stick0 := none, stick1 := none, pinned := false } ]
    { p1 := 0, p2 := 1, length := 10, elasticity := 0.5, selected := false,
      broken := false }
    rfl (by norm_num) (by norm_num) (by norm_num)
  exact ⟨rfl, by norm_num, h.1, h.2.1⟩

/-- C4 witness: a free point integrated with `dt = 2`, `drag = 0.05`,
gravity-like force, plus the fixed drag of a constructed cloth. -/
theorem claim_C4_witness :
    (({ position := ⟨1, 2⟩, prev_position := ⟨0, 1⟩, initial_position := ⟨1, 2⟩,
        stick0 := none, stick1 := none, pinned := false } : Point)).pinned = false ∧
    ((Point.update
        { position := ⟨1, 2⟩, prev_position := ⟨0, 1⟩, initial_position := ⟨1, 2⟩,
          stick0 := none, stick1 := none, pinned := false }
        [] 2 0.05 ⟨0, 981⟩ false)).1.position.x =
      1 + (1 - 0) * (1 - 0.05) + 0 * (1 - 0.05) * 2 * 2 ∧
    ((Point.update
        { position := ⟨1, 2⟩, prev_position := ⟨0, 1⟩, initial_position := ⟨1, 2⟩,
          stick0 := none, stick1 := none, pinned := false }
        [] 2 0.05 ⟨0, 981⟩ false)).1.position.y =
      2 + (2 - 1) * (1 - 0.05) + 981 * (1 - 0.05) * 2 * 2 ∧
    ((Point.update
        { position := ⟨1, 2⟩, prev_position := ⟨0, 1⟩, initial_position := ⟨1, 2⟩,
          stick0 := none, stick1 := none, pinned := false }
        [] 2 0.05 ⟨0, 981⟩ false)).1.prev_position = ⟨1, 2⟩ ∧
    (Cloth.new 2 1 10 0 0 10).drag = 0.05 := by
  have h := claim_C4_verlet
    { position := ⟨1, 2⟩, prev_position := ⟨0, 1⟩, initial_position := ⟨1, 2⟩,
      stick0 := none, stick1 := none, pinned := false }
    [] 2 0.05 ⟨0, 981⟩ false 2 1 10 0 0 10 rfl
  exact ⟨rfl, h.1, h.2.1, h.2.2.1, h.2.2.2⟩

/-- C5 witness: the slack stick of the C3 scenario, pre-correction distance
5 with rest length 10: afterwards the distance is at least as close to 10. -/
theorem claim_C5_witness :
    (0 : ℝ) <
      ((([ { position := ⟨0, 0⟩, prev_position := ⟨0, 0⟩, initial_position := ⟨0, 0⟩, stick0 := none, stick1 := none, pinned := false }, { position := ⟨3, 4⟩, prev_position := ⟨3, 4⟩, initial_position := ⟨3, 4⟩, stick0 := none, stick1 := none, pinned := false } ] : List Point).getD 0 default).position -
        (([ { position := ⟨0, 0⟩, prev_position := ⟨0, 0⟩, initial_position := ⟨0, 0⟩, stick0 := none, stick1 := none, pinned := false }, { position := ⟨3, 4⟩, prev_position := ⟨3, 4⟩, initial_position := ⟨3, 4⟩, stick0 := none, stick1 := none, pinned := false } ] : List Point).getD 1 default).position).magnitude ∧
    |((((Stick.updateState [ { position := ⟨0, 0⟩, prev_position := ⟨0, 0⟩, initial_position := ⟨0, 0⟩, stick0 := none, stick1 := none, pinned := false }, { position := ⟨3, 4⟩, prev_position := ⟨3, 4⟩, initial_position := ⟨3, 4⟩, stick0 := none, stick1 := none, pinned := false } ] { p1 := 0, p2 := 1, length := 10, elasticity := 10, selected := false, broken := false })).1.getD 0 default).position -
      (((Stick.updateState [ { position := ⟨0, 0⟩, prev_position := ⟨0, 0⟩, initial_position := ⟨0, 0⟩, stick0 := none, stick1 := none, pinned := false }, { position := ⟨3, 4⟩, prev_position := ⟨3, 4⟩, initial_position := ⟨3, 4⟩, stick0 := none, stick1 := none, pinned := false } ] { p1 := 0, p2 := 1, length := 10, elasticity := 10, selected := false, broken := false })).1.getD 1 default).position).magnitude - 10|
      ≤ |(((⟨0, 0⟩ : Vector2)) - ⟨3, 4⟩).magnitude - 10| := by
  have hd : (0 : ℝ) < (((⟨0, 0⟩ : Vector2)) - ⟨3, 4⟩).magnitude := by
    rw [Vector2.magnitude]
    refine Real.sqrt_pos.mpr ?_
    norm_num [Vector2.magnitude_squared, Vector2.sub_def]
  exact ⟨hd, claim_C5_monotone_correction _ _ (by norm_num) (by norm_num) (by norm_num)
    (by norm_num) hd⟩

/-- C6 witness: a point holding sticks 0 and 1 of a 2-stick arena; both
get broken, both slots cleared, the rest untouched. -/
theorem claim_C6_witness :
    ((({ position := ⟨1, 2⟩, prev_position := ⟨1, 2⟩, initial_position := ⟨1, 2⟩, stick0 := some 0, stick1 := some 1, pinned := false } : Point)).break_sticks [ { p1 := 0, p2 := 1, length := 10, elasticity := 2, selected := false, broken := false }, { p1 := 2, p2 := 3, length := 10, elasticity := 2, selected := true, broken := false } ]).1.stick0 = none ∧
    ((({ position := ⟨1, 2⟩, prev_position := ⟨1, 2⟩, initial_position := ⟨1, 2⟩, stick0 := some 0, stick1 := some 1, pinned := false } : Point)).break_sticks [ { p1 := 0, p2 := 1, length := 10, elasticity := 2, selected := false, broken := false }, { p1 := 2, p2 := 3, length := 10, elasticity := 2, selected := true, broken := false } ]).1.stick1 = none ∧
    ((({ position := ⟨1, 2⟩, prev_position := ⟨1, 2⟩, initial_position := ⟨1, 2⟩, stick0 := some 0, stick1 := some 1, pinned := false } : Point)).break_sticks [ { p1 := 0, p2 := 1, length := 10, elasticity := 2, selected := false, broken := false }, { p1 := 2, p2 := 3, length := 10, elasticity := 2, selected := true, broken := false } ]).2.getD 0 default = { p1 := 0, p2 := 1, length := 10, elasticity := 2, selected := false, broken := true } ∧
    ((({ position := ⟨1, 2⟩, prev_position := ⟨1, 2⟩, initial_position := ⟨1, 2⟩, stick0 := some 0, stick1 := some 1, pinned := false } : Point)).break_sticks [ { p1 := 0, p2 := 1, length := 10, elasticity := 2, selected := false, broken := false }, { p1 := 2, p2 := 3, length := 10, elasticity := 2, selected := true, broken := false } ]).2.getD 1 default = { p1 := 2, p2 := 3, length := 10, elasticity := 2, selected := true, broken := true } ∧
    ((({ position := ⟨1, 2⟩, prev_position := ⟨1, 2⟩, initial_position := ⟨1, 2⟩, stick0 := some 0, stick1 := some 1, pinned := false } : Point)).break_sticks [ { p1 := 0, p2 := 1, length := 10, elasticity := 2, selected := false, broken := false }, { p1 := 2, p2 := 3, length := 10, elasticity := 2, selected := true, broken := false } ]).2.length = 2 := by
  have h := claim_C6_break_sticks { position := ⟨1, 2⟩, prev_position := ⟨1, 2⟩, initial_position := ⟨1, 2⟩, stick0 := some 0, stick1 := some 1, pinned := false } [ { p1 := 0, p2 := 1, length := 10, elasticity := 2, selected := false, broken := false }, { p1 := 2, p2 := 3, length := 10, elasticity := 2, selected := true, broken := false } ]
  exact ⟨h.1, h.2.1,
    h.2.2.2.2.2.2.1 0 (Or.inl rfl) (by norm_num),
    h.2.2.2.2.2.2.1 1 (Or.inr rfl) (by norm_num),
    h.2.2.2.2.2.2.2.2⟩

/-- C8 witness: construction aborts at elasticity `-1` and succeeds at
elasticity `2`. -/
theorem claim_C8_witness :
    Stick.new 0 1 10 (-1) = none ∧
    Stick.new 0 1 10 2 =
      some { p1 := 0, p2 := 1, length := 10, elasticity := 2,
             selected := false, broken := false } :=
  ⟨(claim_C8_stick_new 0 1 10 (-1)).1 (by norm_num),
   (claim_C8_stick_new 0 1 10 2).2 (by norm_num)⟩

/-- C9 witness: the sweep characterisation instantiated on the concrete
2-point cloth. -/
theorem claim_C9_witness :
    (Cloth.new 2 1 10 0 0 10).stickList.Nodup ∧
    ((Cloth.update (Cloth.new 2 1 10 0 0 10) 1 ⟨⟨1000, 1000⟩, false, false⟩
        ⟨0, 0⟩).stickList =
      (Cloth.new 2 1 10 0 0 10).stickList.filter
        (fun sid => !((((phase1 (Cloth.new 2 1 10 0 0 10) 1 ⟨⟨1000, 1000⟩, false, false⟩
            ⟨0, 0⟩).stickHeap.getD sid default))).broken) ∧
      (Cloth.update (Cloth.new 2 1 10 0 0 10) 1 ⟨⟨1000, 1000⟩, false, false⟩
          ⟨0, 0⟩).stickList.length =
        (Cloth.new 2 1 10 0 0 10).stickList.length -
          (Cloth.new 2 1 10 0 0 10).stickList.countP
            (fun sid => ((phase1 (Cloth.new 2 1 10 0 0 10) 1 ⟨⟨1000, 1000⟩, false, false⟩
                ⟨0, 0⟩).stickHeap.getD sid default).broken)) := by
  have hnd : (Cloth.new 2 1 10 0 0 10).stickList.Nodup := by
    rw [newA]
    exact List.nodup_singleton 0
  exact ⟨hnd, claim_C9_sweep_removes_broken (Cloth.new 2 1 10 0 0 10) 1
    ⟨⟨1000, 1000⟩, false, false⟩ ⟨0, 0⟩ hnd⟩

theorem newC : (Cloth.new 2 1 20 0 0 10) =
    { points := [
        { position := ⟨0, 0⟩, prev_position := ⟨0, 0⟩, initial_position := ⟨0, 0⟩,
          stick0 := some 0, stick1 := none, pinned := true },
        { position := ⟨20, 0⟩, prev_position := ⟨20, 0⟩, initial_position := ⟨20, 0⟩,
          stick0 := some 0, stick1 := none, pinned := false }],
      stickHeap := [{ p1 := 1, p2 := 0, length := 20, elasticity := 10,
                      selected := false, broken := false }],
      stickList := [0], drag := 0.05, elasticity := 10 } := by
  norm_num [Cloth.new, Cloth.newStep, Point.new, Point.add_stick, Point.pin, Stick.make,
    List.range_succ, List.foldl_cons, List.foldl_nil]

/-- C10 witness: cursor sitting on point 0 only; point 1 (iterated last,
holding the stick) is not selected, so after phase 1 the stick's selected
flag is point 1's status, i.e. `false`, although point 0 is selected. -/
theorem claim_C10_witness :
    ((⟨⟨0, 0⟩, false, false⟩ : Mouse)).rightDown = false ∧
    (((Cloth.new 2 1 20 0 0 10).points.getD 1 default)).holds 0 ∧
    selStatus ⟨⟨0, 0⟩, false, false⟩ ((Cloth.new 2 1 20 0 0 10).points.getD 0 default)
      = true ∧
    selStatus ⟨⟨0, 0⟩, false, false⟩ ((Cloth.new 2 1 20 0 0 10).points.getD 1 default)
      = false ∧
    ((phase1 (Cloth.new 2 1 20 0 0 10) 1 ⟨⟨0, 0⟩, false, false⟩ ⟨0, 0⟩).stickHeap.getD
        0 default).selected =
      selStatus ⟨⟨0, 0⟩, false, false⟩ ((Cloth.new 2 1 20 0 0 10).points.getD 1 default) := by
  have hholds : (((Cloth.new 2 1 20 0 0 10).points.getD 1 default)).holds 0 := by
    rw [newC]
    exact Or.inl rfl
  refine ⟨rfl, hholds, ?_, ?_, ?_⟩
  · rw [newC]
    norm_num [selStatus, Vector2.magnitude_squared, Vector2.sub_def, CURSOR_RADIUS,
      List.getD_cons_zero]
  · rw [newC]
    norm_num [selStatus, Vector2.magnitude_squared, Vector2.sub_def, CURSOR_RADIUS,
      List.getD_cons_zero, List.getD_cons_succ]
  · refine claim_C10_selected_last_writer (Cloth.new 2 1 20 0 0 10) 1
      ⟨⟨0, 0⟩, false, false⟩ ⟨0, 0⟩ 0 1 rfl ?_ ?_ hholds ?_
    · rw [newC]
      norm_num
    · rw [newC]
      norm_num
    · intro k hk1 hk2 hh
      rw [newC] at hk2
      simp at hk2
      omega

end
